import Mathlib

/-!
Shallow embedding of `server/app/main.py` (a FastAPI websocket metrics
broadcaster): the metrics source `get_metrics`, the broadcast loop
`broadcast_metrics_loop`, the connection handler `websocket_endpoint`
and the shutdown hook `on_shutdown`, together with theorems about them.

Machine reals (Python floats) are modelled as rationals; timestamps and
serialized JSON payloads are carried opaquely.  Connections are natural
numbers; the process-wide `clients` set is modelled as a duplicate-free
list whose order is the set's iteration order (CPython iterates an
unmodified set in a fixed order, so two `list(clients)` calls with no
intervening mutation agree; a mutation in between may change both the
membership and the order, which the `mutOp` parameter below captures).
-/

namespace ServerAmigo

/-- A subscriber connection (the `WebSocket` handle), identified by a number. -/
abbrev Conn := Nat

/-- The fields of `psutil.disk_io_counters()` that `get_metrics` reads. -/
structure IOStats where
  read_bytes : Int
  write_bytes : Int
deriving DecidableEq, Repr

/-- The dict returned by `get_metrics`: JSON object with fields
`cpu`, `memory`, `disk`, `disk_read`, `disk_write`, `timestamp`
and, on the error branch only, `error`. -/
structure MetricsRecord where
  cpu : Rat
  memory : Rat
  disk : Rat
  disk_read : Rat
  disk_write : Rat
  errorField : Option String
  timestamp : String
deriving DecidableEq, Repr

/-- Python `round(x, 2)`: round to two decimal places, ties to even
(banker's rounding, as CPython's `round` does on floats). -/
def pyRound2 (q : Rat) : Rat :=
  let s := q * 100
  let n : Int := if Int.fract s = 1/2 then (if 2 ∣ ⌊s⌋ then ⌊s⌋ else ⌊s⌋ + 1) else round s
  (n : Rat) / 100

/-- What the environment supplies to one `get_metrics` call: either all
psutil reads succeed with these values, or some call in the `try` block
raises (psutil reads and the arithmetic all precede the
`last_io_stats = current_io_stats` assignment in the source). -/
inductive SampleEnv where
  | ok (cpu memory disk : Rat) (io : IOStats)
  | fail (msg : String)
deriving DecidableEq, Repr

/-- The record built by the `except Exception` branch of `get_metrics`:
all numeric fields zero, an `error` string, and a timestamp. -/
def errorRecord (msg : String) (ts : String) : MetricsRecord :=
  { cpu := 0, memory := 0, disk := 0, disk_read := 0, disk_write := 0,
    errorField := some msg, timestamp := ts }

/-- `get_metrics` from `main.py`.  Inputs: the nominal `UPDATE_INTERVAL`,
what psutil yields this call, the timestamp `datetime.now().isoformat()`,
and the module-global `last_io_stats`; output: the returned dict and the
new value of `last_io_stats`.  A zero interval makes the division raise
`ZeroDivisionError`, which the `except` also catches; in that case, as in
the psutil-failure case, the exception fires before the
`last_io_stats = current_io_stats` assignment, so the global is kept. -/
def get_metrics (interval : Rat) (env : SampleEnv) (ts : String)
    (last : IOStats) : MetricsRecord × IOStats :=
  match env with
  | .fail msg => (errorRecord msg ts, last)
  | .ok cpu memory disk io =>
    if interval = 0 then
      (errorRecord "float division by zero" ts, last)
    else
      let read_bytes := io.read_bytes - last.read_bytes
      let write_bytes := io.write_bytes - last.write_bytes
      let read_speed : Rat := (read_bytes : Rat) / interval
      let write_speed : Rat := (write_bytes : Rat) / interval
      ({ cpu := pyRound2 cpu, memory := pyRound2 memory,
         disk := pyRound2 disk,
         disk_read := pyRound2 read_speed,
         disk_write := pyRound2 write_speed,
         errorField := none, timestamp := ts }, io)

/-- The observable effects of one pass of the `while True` body of
`broadcast_metrics_loop` after its sleep completes. -/
structure TickResult where
  /-- whether `get_metrics()` was called this tick -/
  sampled : Bool
  /-- the record whose serialization was broadcast, if any -/
  message : Option MetricsRecord
  /-- the connections a `safe_send` coroutine was created and awaited for -/
  attempted : List Conn
  /-- the connections the prune loop closed and discarded -/
  closed : List Conn
  /-- the `clients` set when the tick's body finishes -/
  newRegistry : List Conn
deriving DecidableEq, Repr

/-- One tick of `broadcast_metrics_loop` (the loop body after
`await asyncio.sleep`).  `reg` is `clients` when the sleep returns; there
is no suspension point between the `if not clients` check, the
`get_metrics()` call, `json.dumps` and the first `list(clients)`, so all
four see the same membership.  The only suspension is the
`await asyncio.gather`; `mutOp` maps the registry across it, modelling
handlers adding or removing members while the sends are in flight.  The
prune loop then takes a second `list(clients)` — the mutated registry —
and zips it against the gathered results; each member paired with an
exception is closed (close errors swallowed) and discarded. -/
def broadcastTick (interval : Rat) (env : SampleEnv) (ts : String)
    (last : IOStats) (reg : List Conn) (fails : Conn → Bool)
    (mutOp : List Conn → List Conn) : TickResult × IOStats :=
  if reg.isEmpty then
    ({ sampled := false, message := none, attempted := [],
       closed := [], newRegistry := reg }, last)
  else
    let metrics := get_metrics interval env ts last
    let snap1 := reg
    let results := snap1.map fails
    let snap2 := mutOp reg
    let failedPaired := ((snap2.zip results).filter (fun p => p.2)).map Prod.fst
    ({ sampled := true, message := some metrics.1, attempted := snap1,
       closed := failedPaired,
       newRegistry := snap2.filter (fun c => decide (c ∉ failedPaired)) },
     metrics.2)

/-- How the `broadcast_metrics_loop` coroutine finishes: the
`except asyncio.CancelledError: return` makes a cancelled loop return
normally; `raised e` would be an exception propagating out of it. -/
inductive LoopExit where
  | normalReturn
  | raised (e : String)
deriving DecidableEq, Repr

/-- The environment of one tick of the loop: what psutil yields, the
timestamp, which sends fail, the registry mutation concurrent with the
gather, and the handler activity between this tick's end and the end of
the next sleep. -/
structure TickInput where
  env : SampleEnv
  ts : String
  fails : Conn → Bool
  mutOp : List Conn → List Conn
  between : List Conn → List Conn

/-- `broadcast_metrics_loop` from `main.py`: `while True` ticks, here
driven by the list of tick environments that occur before cancellation.
Cancellation (task.cancel from `on_shutdown`) is modelled as arriving at
the sleep after the last input; the surrounding
`try ... except asyncio.CancelledError: return` converts it into a
normal return.  Nothing in the body raises out of the loop:
`get_metrics` catches its own exceptions, the gather is called with
`return_exceptions=True`, and the prune's `ws.close()` is wrapped in
`try/except Exception: pass` — so `LoopExit.raised` is unreachable. -/
def broadcast_metrics_loop (interval : Rat) (inputs : List TickInput)
    (last : IOStats) (reg : List Conn) : LoopExit × IOStats × List Conn :=
  match inputs with
  | [] => (LoopExit.normalReturn, last, reg)
  | i :: rest =>
      let t := broadcastTick interval i.env i.ts last reg i.fails i.mutOp
      broadcast_metrics_loop interval rest t.2 (i.between t.1.newRegistry)

/-- Why the receive loop of `websocket_endpoint` exits: the peer closed
(`WebSocketDisconnect`), the transport errored (any other `Exception`),
or the broadcast loop pruned the socket, making `receive_text` raise. -/
inductive ExitCause where
  | peerClose
  | transportError (e : String)
  | prunedByBroadcast
deriving DecidableEq, Repr

/-- What `websocket_endpoint` does after its receive loop exits. -/
structure HandlerExit where
  /-- the exception, if any, propagating out of the endpoint -/
  propagated : Option String
  /-- whether the handler itself called `websocket.close()` -/
  closedByHandler : Bool
deriving DecidableEq, Repr

/-- The `except`/`finally` tail of `websocket_endpoint`: both `except`
clauses are `pass` (nothing propagates), the `finally` logs and runs
`if websocket in clients: clients.discard(websocket)`, and no exit path
calls `websocket.close()`.  Inputs: the exit cause, the connection, and
the `clients` set at that moment; output: the handler's observable exit
and the new `clients` set. -/
def websocket_endpoint_exit (cause : ExitCause) (ws : Conn)
    (reg : List Conn) : HandlerExit × List Conn :=
  ({ propagated := none, closedByHandler := false },
   if ws ∈ reg then reg.filter (fun c => decide (c ≠ ws)) else reg)

/-- The observable effects of `on_shutdown`. -/
structure ShutdownResult where
  /-- whether `broadcast_task.cancel()` was called -/
  cancelledTask : Bool
  /-- whether the hook awaited the cancelled task's termination -/
  awaitedTask : Bool
  /-- connections given a `close()` attempt during teardown -/
  closeAttempts : List Conn
  /-- close attempts that succeeded (failures are swallowed) -/
  closedOk : List Conn
  /-- the `clients` set after `clients.clear()` -/
  finalRegistry : List Conn
deriving DecidableEq, Repr

/-- `on_shutdown` from `main.py`.  `task` is the module-global
`broadcast_task` (`none` when no broadcast task was ever started).  If a
task exists it is cancelled and awaited (the `except Exception: pass`
swallows anything the await raises); then every member of
`list(clients)` gets a best-effort `close()` with failures swallowed,
and `clients.clear()` empties the registry.  `closeFails c` models
`ws.close()` raising for connection `c`. -/
def on_shutdown (task : Option LoopExit) (reg : List Conn)
    (closeFails : Conn → Bool) : ShutdownResult :=
  { cancelledTask := task.isSome,
    awaitedTask := task.isSome,
    closeAttempts := reg,
    closedOk := reg.filter (fun c => !(closeFails c)),
    finalRegistry := [] }

/-- After the receive loop exits for a connection not (or no longer) in
the registry, the exit path is a pure no-op on the registry. -/
theorem websocket_endpoint_exit_of_not_mem (cause : ExitCause) (ws : Conn)
    (l : List Conn) (h : ws ∉ l) :
    websocket_endpoint_exit cause ws l = (⟨none, false⟩, l) := by
  simp [websocket_endpoint_exit, h]

/-- C1: at a concrete tick the code's two `list(clients)` calls diverge:
the fan-out snapshot is `[1, 2]` (the send to 1 fails, the send to 2
succeeds) and connection 0 registers during the gather, so the prune's
second snapshot is `[0, 1, 2]`.  The zip pairs member 1's failed result
with member 0: the tick closes and removes connection 0 — which received
no delivery attempt — and keeps failed member 1, refuting the claim that
fan-out and prune share a single frozen snapshot whose results stay
paired with the members that produced them. -/
theorem C1_prune_pairs_wrong_member :
    (broadcastTick 2 (SampleEnv.ok 10 20 30 ⟨100, 200⟩) "t0" ⟨0, 0⟩ [1, 2]
        (fun c => decide (c = 1)) (fun _ => [0, 1, 2])).1.attempted = [1, 2] ∧
    (broadcastTick 2 (SampleEnv.ok 10 20 30 ⟨100, 200⟩) "t0" ⟨0, 0⟩ [1, 2]
        (fun c => decide (c = 1)) (fun _ => [0, 1, 2])).1.closed = [0] ∧
    (broadcastTick 2 (SampleEnv.ok 10 20 30 ⟨100, 200⟩) "t0" ⟨0, 0⟩ [1, 2]
        (fun c => decide (c = 1)) (fun _ => [0, 1, 2])).1.newRegistry = [1, 2] := by
  decide

/-- C2: in the same race, subscriber 5's delivery attempt fails during a
tick in which connection 4 registers mid-fan-out, yet 5 is neither closed
nor removed by the end of that tick (4 is pruned in its place), and 5
still receives the next tick's delivery attempt — refuting the claim
that every failed subscriber is pruned by tick end. -/
theorem C2_failed_member_not_pruned :
    5 ∉ (broadcastTick 2 (SampleEnv.ok 1 2 3 ⟨0, 0⟩) "t1" ⟨0, 0⟩ [5, 6]
        (fun c => decide (c = 5)) (fun _ => [4, 5, 6])).1.closed ∧
    5 ∈ (broadcastTick 2 (SampleEnv.ok 1 2 3 ⟨0, 0⟩) "t1" ⟨0, 0⟩ [5, 6]
        (fun c => decide (c = 5)) (fun _ => [4, 5, 6])).1.newRegistry ∧
    5 ∈ (broadcastTick 2 (SampleEnv.ok 1 2 3 ⟨0, 0⟩) "t2" ⟨0, 0⟩
        ((broadcastTick 2 (SampleEnv.ok 1 2 3 ⟨0, 0⟩) "t1" ⟨0, 0⟩ [5, 6]
            (fun c => decide (c = 5)) (fun _ => [4, 5, 6])).1.newRegistry)
        (fun _ => false) (fun r => r)).1.attempted := by
  decide

/-- C3: every member of the fan-out snapshot gets a delivery attempt no
matter which sends fail (the gather collects exceptions instead of
aborting), and the loop, cancelled after any number of ticks, exits
through its caught `CancelledError` with a normal return — it never
propagates the cancellation or any per-member failure. -/
theorem C3_failures_isolated_cancellation_clean (interval : Rat)
    (inputs : List TickInput) (last : IOStats) (reg : List Conn)
    (env : SampleEnv) (ts : String) (last2 : IOStats) (reg2 : List Conn)
    (fails : Conn → Bool) (mutOp : List Conn → List Conn) :
    (broadcast_metrics_loop interval inputs last reg).1 = LoopExit.normalReturn ∧
    (reg2 ≠ [] →
      (broadcastTick interval env ts last2 reg2 fails mutOp).1.attempted = reg2) := by
  constructor
  · induction inputs generalizing last reg with
    | nil => rfl
    | cons i rest ih => exact ih _ _
  · intro h
    cases reg2 with
    | nil => exact absurd rfl h
    | cons a l => rfl

/-- Witness for C3 at a concrete cancelled run and a concrete
all-sends-fail tick. -/
theorem C3_failures_isolated_cancellation_clean_witness :
    (broadcast_metrics_loop 2 [] ⟨0, 0⟩ [1]).1 = LoopExit.normalReturn ∧
    ([3] : List Conn) ≠ [] ∧
    (broadcastTick 2 (SampleEnv.fail "send blew up") "t" ⟨0, 0⟩ [3]
        (fun _ => true) (fun r => r)).1.attempted = [3] :=
  ⟨(C3_failures_isolated_cancellation_clean 2 [] ⟨0, 0⟩ [1]
      (SampleEnv.fail "send blew up") "t" ⟨0, 0⟩ [3]
      (fun _ => true) (fun r => r)).1,
   by decide,
   (C3_failures_isolated_cancellation_clean 2 [] ⟨0, 0⟩ [1]
      (SampleEnv.fail "send blew up") "t" ⟨0, 0⟩ [3]
      (fun _ => true) (fun r => r)).2 (by decide)⟩

/-- C4 counterexample: on a transport error the handler's exit path does
not close the connection — `websocket_endpoint` has no `close()` call in
its `except`/`finally` tail — refuting the claim's "on a transport error
the connection is also closed". -/
theorem C4_no_close_on_transport_error :
    (websocket_endpoint_exit (ExitCause.transportError "recv failed") 7
        [7]).1.closedByHandler = false := rfl

/-- C4 (amended): whenever the receive loop exits — peer close, transport
error, or pruning by the broadcast loop — the handler propagates nothing,
removes its own connection from the registry while keeping every other
member, and a duplicate removal attempt is a harmless no-op; the handler
itself closes nothing (closure is left to the transport/framework). -/
theorem C4_exit_removes_self_and_swallows (cause : ExitCause) (ws : Conn)
    (reg : List Conn) :
    (websocket_endpoint_exit cause ws reg).1.propagated = none ∧
    ws ∉ (websocket_endpoint_exit cause ws reg).2 ∧
    (∀ c, c ∈ reg → c ≠ ws → c ∈ (websocket_endpoint_exit cause ws reg).2) ∧
    websocket_endpoint_exit cause ws (websocket_endpoint_exit cause ws reg).2 =
      ((websocket_endpoint_exit cause ws reg).1,
       (websocket_endpoint_exit cause ws reg).2) := by
  have hnot : ws ∉ (websocket_endpoint_exit cause ws reg).2 := by
    by_cases h : ws ∈ reg <;> simp [websocket_endpoint_exit, h]
  refine ⟨rfl, hnot, ?_, ?_⟩
  · intro c hc hne
    by_cases h : ws ∈ reg <;> simp [websocket_endpoint_exit, h, hc, hne]
  · have h1 : (websocket_endpoint_exit cause ws reg).1 = ⟨none, false⟩ := rfl
    rw [h1]
    exact websocket_endpoint_exit_of_not_mem cause ws _ hnot

/-- Witness for C4 (amended) at a concrete registry. -/
theorem C4_exit_removes_self_and_swallows_witness :
    (9 ∈ ([7, 9] : List Conn)) ∧ (9 : Conn) ≠ 7 ∧
    9 ∈ (websocket_endpoint_exit ExitCause.peerClose 7 [7, 9]).2 :=
  ⟨by decide, by decide,
   (C4_exit_removes_self_and_swallows ExitCause.peerClose 7 [7, 9]).2.2.1 9
     (by decide) (by decide)⟩

/-- C5: `on_shutdown` cancels and awaits the broadcast task when one
exists, gives every connection still registered a close attempt, leaves
the registry empty, and — since the outcome is the same for every
`closeFails`, in particular the all-fail one — completes even if every
close attempt fails. -/
theorem C5_shutdown_drains_registry (task : Option LoopExit)
    (reg : List Conn) (closeFails : Conn → Bool) :
    (on_shutdown task reg closeFails).closeAttempts = reg ∧
    (on_shutdown task reg closeFails).finalRegistry = [] ∧
    (task.isSome = true →
      (on_shutdown task reg closeFails).cancelledTask = true ∧
      (on_shutdown task reg closeFails).awaitedTask = true) ∧
    (on_shutdown task reg (fun _ => true)).closeAttempts = reg ∧
    (on_shutdown task reg (fun _ => true)).finalRegistry = [] := by
  exact ⟨rfl, rfl, fun h => ⟨h, h⟩, rfl, rfl⟩

/-- Witness for C5 with a started task and closes that all fail. -/
theorem C5_shutdown_drains_registry_witness :
    (some LoopExit.normalReturn : Option LoopExit).isSome = true ∧
    (on_shutdown (some LoopExit.normalReturn) [1, 2]
        (fun _ => true)).cancelledTask = true ∧
    (on_shutdown (some LoopExit.normalReturn) [1, 2]
        (fun _ => true)).finalRegistry = [] :=
  ⟨rfl,
   ((C5_shutdown_drains_registry (some LoopExit.normalReturn) [1, 2]
       (fun _ => true)).2.2.1 rfl).1,
   (C5_shutdown_drains_registry (some LoopExit.normalReturn) [1, 2]
       (fun _ => true)).2.1⟩

/-- C6: `get_metrics` is total; every internal failure — a psutil raise,
or the `ZeroDivisionError` of a zero interval — returns a record whose
five numeric fields are all zero, with an error string and a timestamp,
and the broadcast tick serializes and sends exactly the returned record;
a successful sample carries no error field. -/
theorem C6_sampling_never_raises (interval : Rat) (env : SampleEnv)
    (ts : String) (last : IOStats) (reg : List Conn) (fails : Conn → Bool)
    (mutOp : List Conn → List Conn) :
    ((∃ m, env = SampleEnv.fail m) ∨ interval = 0 →
      (get_metrics interval env ts last).1.cpu = 0 ∧
      (get_metrics interval env ts last).1.memory = 0 ∧
      (get_metrics interval env ts last).1.disk = 0 ∧
      (get_metrics interval env ts last).1.disk_read = 0 ∧
      (get_metrics interval env ts last).1.disk_write = 0 ∧
      (∃ e, (get_metrics interval env ts last).1.errorField = some e) ∧
      (get_metrics interval env ts last).1.timestamp = ts) ∧
    (∀ cpu memory disk io, env = SampleEnv.ok cpu memory disk io →
      interval ≠ 0 → (get_metrics interval env ts last).1.errorField = none) ∧
    (reg ≠ [] →
      (broadcastTick interval env ts last reg fails mutOp).1.message =
        some (get_metrics interval env ts last).1) := by
  refine ⟨?_, ?_, ?_⟩
  · rintro (⟨m, rfl⟩ | hz)
    · simp [get_metrics, errorRecord]
    · cases env <;> simp [get_metrics, errorRecord, hz]
  · rintro cpu memory disk io rfl hne
    simp [get_metrics, hne]
  · intro hreg
    cases reg with
    | nil => exact absurd rfl hreg
    | cons a l => rfl

/-- Witness for C6: a failing sample, a succeeding sample, and a tick
that broadcasts the degraded record. -/
theorem C6_sampling_never_raises_witness :
    ((get_metrics 2 (SampleEnv.fail "boom") "t" ⟨0, 0⟩).1.cpu = 0 ∧
     (get_metrics 2 (SampleEnv.fail "boom") "t" ⟨0, 0⟩).1.memory = 0 ∧
     (get_metrics 2 (SampleEnv.fail "boom") "t" ⟨0, 0⟩).1.disk = 0 ∧
     (get_metrics 2 (SampleEnv.fail "boom") "t" ⟨0, 0⟩).1.disk_read = 0 ∧
     (get_metrics 2 (SampleEnv.fail "boom") "t" ⟨0, 0⟩).1.disk_write = 0 ∧
     (∃ e, (get_metrics 2 (SampleEnv.fail "boom") "t" ⟨0, 0⟩).1.errorField =
       some e) ∧
     (get_metrics 2 (SampleEnv.fail "boom") "t" ⟨0, 0⟩).1.timestamp = "t") ∧
    (get_metrics 2 (SampleEnv.ok 1 2 3 ⟨0, 0⟩) "t" ⟨0, 0⟩).1.errorField =
      none ∧
    (broadcastTick 2 (SampleEnv.fail "boom") "t" ⟨0, 0⟩ [1] (fun _ => false)
        (fun r => r)).1.message =
      some (get_metrics 2 (SampleEnv.fail "boom") "t" ⟨0, 0⟩).1 :=
  ⟨(C6_sampling_never_raises 2 (SampleEnv.fail "boom") "t" ⟨0, 0⟩ [1]
      (fun _ => false) (fun r => r)).1 (Or.inl ⟨"boom", rfl⟩),
   (C6_sampling_never_raises 2 (SampleEnv.ok 1 2 3 ⟨0, 0⟩) "t" ⟨0, 0⟩ [1]
      (fun _ => false) (fun r => r)).2.1 1 2 3 ⟨0, 0⟩ rfl (by norm_num),
   (C6_sampling_never_raises 2 (SampleEnv.fail "boom") "t" ⟨0, 0⟩ [1]
      (fun _ => false) (fun r => r)).2.2 (by decide)⟩

/-- C7: when the registry is empty as the interval sleep completes, the
tick samples nothing — `get_metrics` is not called, no message is built,
no delivery is attempted, nothing is pruned — and both the registry and
`last_io_stats` pass to the next tick unchanged. -/
theorem C7_empty_registry_skips_sampling (interval : Rat) (env : SampleEnv)
    (ts : String) (last : IOStats) (fails : Conn → Bool)
    (mutOp : List Conn → List Conn) (reg : List Conn) (h : reg = []) :
    (broadcastTick interval env ts last reg fails mutOp).1.sampled = false ∧
    (broadcastTick interval env ts last reg fails mutOp).1.message = none ∧
    (broadcastTick interval env ts last reg fails mutOp).1.attempted = [] ∧
    (broadcastTick interval env ts last reg fails mutOp).1.closed = [] ∧
    (broadcastTick interval env ts last reg fails mutOp).1.newRegistry = reg ∧
    (broadcastTick interval env ts last reg fails mutOp).2 = last := by
  subst h
  exact ⟨rfl, rfl, rfl, rfl, rfl, rfl⟩

/-- Witness for C7 at a concrete empty-registry tick. -/
theorem C7_empty_registry_skips_sampling_witness :
    (([] : List Conn) = []) ∧
    (broadcastTick 2 (SampleEnv.ok 1 2 3 ⟨9, 9⟩) "t" ⟨5, 5⟩ []
        (fun _ => true) (fun r => r)).1.sampled = false ∧
    (broadcastTick 2 (SampleEnv.ok 1 2 3 ⟨9, 9⟩) "t" ⟨5, 5⟩ []
        (fun _ => true) (fun r => r)).2 = ⟨5, 5⟩ :=
  ⟨rfl,
   (C7_empty_registry_skips_sampling 2 (SampleEnv.ok 1 2 3 ⟨9, 9⟩) "t" ⟨5, 5⟩
      (fun _ => true) (fun r => r) [] rfl).1,
   (C7_empty_registry_skips_sampling 2 (SampleEnv.ok 1 2 3 ⟨9, 9⟩) "t" ⟨5, 5⟩
      (fun _ => true) (fun r => r) [] rfl).2.2.2.2.2⟩

/-- C8: a successful sample reports `disk_read` and `disk_write` as the
raw deltas of the cumulative I/O byte counters divided by the nominal
`UPDATE_INTERVAL` (no measured elapsed time appears anywhere in the
computation), each rounded to two decimals, and replaces the stored
counters with the freshly read ones. -/
theorem C8_disk_rates_use_nominal_interval (interval : Rat)
    (hne : interval ≠ 0) (cpu memory disk : Rat) (io last : IOStats)
    (ts : String) :
    (get_metrics interval (SampleEnv.ok cpu memory disk io) ts
        last).1.disk_read =
      pyRound2 (((io.read_bytes - last.read_bytes : Int) : Rat) / interval) ∧
    (get_metrics interval (SampleEnv.ok cpu memory disk io) ts
        last).1.disk_write =
      pyRound2 (((io.write_bytes - last.write_bytes : Int) : Rat) / interval) ∧
    (get_metrics interval (SampleEnv.ok cpu memory disk io) ts last).2 = io := by
  simp [get_metrics, hne]

/-- Witness for C8: 100 read bytes and 60 written bytes over a nominal
2-second interval. -/
theorem C8_disk_rates_use_nominal_interval_witness :
    ((2 : Rat) ≠ 0) ∧
    (get_metrics 2 (SampleEnv.ok 1 2 3 ⟨100, 60⟩) "t" ⟨0, 0⟩).1.disk_read =
      pyRound2 (((100 - 0 : Int) : Rat) / 2) ∧
    (get_metrics 2 (SampleEnv.ok 1 2 3 ⟨100, 60⟩) "t" ⟨0, 0⟩).1.disk_write =
      pyRound2 (((60 - 0 : Int) : Rat) / 2) ∧
    (get_metrics 2 (SampleEnv.ok 1 2 3 ⟨100, 60⟩) "t" ⟨0, 0⟩).2 = ⟨100, 60⟩ :=
  ⟨by norm_num,
   C8_disk_rates_use_nominal_interval 2 (by norm_num) 1 2 3 ⟨100, 60⟩ ⟨0, 0⟩ "t"⟩

/-- C9: a `get_metrics` call that takes the error branch leaves the
module-global `last_io_stats` unchanged — the exception fires before the
`last_io_stats = current_io_stats` assignment, so only a successful
sample replaces the stored counters. -/
theorem C9_error_branch_keeps_last_io (interval : Rat) (env : SampleEnv)
    (ts : String) (last : IOStats)
    (h : (get_metrics interval env ts last).1.errorField ≠ none) :
    (get_metrics interval env ts last).2 = last := by
  cases env with
  | fail m => rfl
  | ok cpu memory disk io =>
      by_cases hz : interval = 0
      · simp [get_metrics, hz]
      · exact absurd (by simp [get_metrics, hz]) h

/-- Witness for C9 at a failing sample with nonzero stored counters. -/
theorem C9_error_branch_keeps_last_io_witness :
    (get_metrics 2 (SampleEnv.fail "io error") "t" ⟨3, 4⟩).1.errorField ≠
      none ∧
    (get_metrics 2 (SampleEnv.fail "io error") "t" ⟨3, 4⟩).2 = ⟨3, 4⟩ :=
  ⟨by simp [get_metrics, errorRecord],
   C9_error_branch_keeps_last_io 2 (SampleEnv.fail "io error") "t" ⟨3, 4⟩
     (by simp [get_metrics, errorRecord])⟩

/-- C10: running `on_shutdown` when no broadcast task was ever started
(`broadcast_task is None`) skips the cancellation branch, still gives
every registered connection a close attempt, and clears the registry —
all as a total function, so nothing is raised. -/
theorem C10_shutdown_with_no_task (reg : List Conn)
    (closeFails : Conn → Bool) :
    (on_shutdown none reg closeFails).cancelledTask = false ∧
    (on_shutdown none reg closeFails).awaitedTask = false ∧
    (on_shutdown none reg closeFails).closeAttempts = reg ∧
    (on_shutdown none reg closeFails).finalRegistry = [] :=
  ⟨rfl, rfl, rfl, rfl⟩

end ServerAmigo
